import Mathlib

/-!
# web-scraper: the scrape pipeline of `main.go`

A shallow embedding of `getSiteName`, `getStatusCode`, `scrapeOnce` and the
`/scrape` handler of `main.go`, with the properties of the pipeline stated
and settled over it.

Go strings are byte sequences: `len`, slicing, `strings.TrimPrefix` and
`strings.ReplaceAll` all work on bytes.  A `GoString` is therefore a list of
byte values; a character (rune) is one to four bytes of UTF-8.

Paths are built by `filepath.Join` with the separator `/`, the one of the
layout `data/`, `screenshot/`, `urls/`.
-/

set_option autoImplicit false
set_option maxRecDepth 100000

namespace WebScraper

/-! ## Strings -/

/-- A Go `string` (also used for `[]byte`): its bytes, each a value below 256.
The general theorems hold for all lists; the concrete inputs are made of bytes. -/
abbrev GoString := List Nat

/-- The UTF-8 encoding of one character, as Go stores it in a string. -/
def utf8Bytes (c : Char) : List Nat :=
  let n := c.toNat
  if n < 0x80 then [n]
  else if n < 0x800 then [0xC0 + n / 64, 0x80 + n % 64]
  else if n < 0x10000 then [0xE0 + n / 4096, 0x80 + n / 64 % 64, 0x80 + n % 64]
  else [0xF0 + n / 262144, 0x80 + n / 4096 % 64, 0x80 + n / 64 % 64, 0x80 + n % 64]

/-- A Go string literal: the UTF-8 bytes of the text. -/
def str (s : String) : GoString := s.toList.flatMap utf8Bytes

/-- Go `strings.HasPrefix`: `len(s) >= len(prefix) && s[:len(prefix)] == prefix`. -/
def HasPrefix (s pre : GoString) : Bool :=
  decide (pre.length ≤ s.length) && (s.take pre.length == pre)

/-- Go `strings.TrimPrefix`: `s[len(prefix):]` when `s` has the prefix, else `s`. -/
def TrimPrefix (s pre : GoString) : GoString :=
  if HasPrefix s pre then s.drop pre.length else s

/-- Width in bytes of the first UTF-8 sequence of a non-empty string, as
`utf8.DecodeRuneInString` reports it: an ill-formed sequence has width 1. -/
def runeWidth : GoString → Nat
  | [] => 0
  | b0 :: rest =>
    let cont (b : Nat) : Bool := decide (0x80 ≤ b) && decide (b ≤ 0xBF)
    if b0 < 0x80 then 1
    else if 0xC2 ≤ b0 ∧ b0 ≤ 0xDF then
      match rest with
      | b1 :: _ => if cont b1 then 2 else 1
      | _ => 1
    else if 0xE0 ≤ b0 ∧ b0 ≤ 0xEF then
      match rest with
      | b1 :: b2 :: _ =>
        let lo := if b0 = 0xE0 then 0xA0 else 0x80
        let hi := if b0 = 0xED then 0x9F else 0xBF
        if decide (lo ≤ b1) && decide (b1 ≤ hi) && cont b2 then 3 else 1
      | _ => 1
    else if 0xF0 ≤ b0 ∧ b0 ≤ 0xF4 then
      match rest with
      | b1 :: b2 :: b3 :: _ =>
        let lo := if b0 = 0xF0 then 0x90 else 0x80
        let hi := if b0 = 0xF4 then 0x8F else 0xBF
        if decide (lo ≤ b1) && decide (b1 ≤ hi) && cont b2 && cont b3 then 4 else 1
      | _ => 1
    else 1

/-- Replacement loop of Go `strings.Replace` for a non-empty `old`: the
leftmost occurrences, left to right, none overlapping. -/
def replaceLoop (old new : GoString) : Nat → GoString → GoString
  | 0, s => s
  | _ + 1, [] => []
  | fuel + 1, c :: cs =>
    if HasPrefix (c :: cs) old then new ++ replaceLoop old new fuel ((c :: cs).drop old.length)
    else c :: replaceLoop old new fuel cs

/-- Replacement loop of Go `strings.Replace` for the empty `old`, which
matches after each UTF-8 sequence. -/
def replaceEmpty (new : GoString) : Nat → GoString → GoString
  | 0, s => s
  | _ + 1, [] => []
  | fuel + 1, c :: cs =>
    (c :: cs).take (runeWidth (c :: cs)) ++ new ++
      replaceEmpty new fuel ((c :: cs).drop (runeWidth (c :: cs)))

/-- Go `strings.ReplaceAll(s, old, new)`. -/
def ReplaceAll (s old new : GoString) : GoString :=
  if old = [] then new ++ replaceEmpty new s.length s
  else replaceLoop old new s.length s

/-- Go `strings.Join(elems, sep)`. -/
def stringsJoin : List GoString → GoString → GoString
  | [], _ => []
  | [e], _ => e
  | e :: es, sep => e ++ (es.map (fun x => sep ++ x)).flatten

/-! ## The name sanitizer -/

/-- `getSiteName` of `main.go`. -/
def getSiteName (url : GoString) : GoString :=
  let name := TrimPrefix url (str "https://")
  let name := TrimPrefix name (str "http://")
  let name := TrimPrefix name (str "www.")
  let name := ReplaceAll name (str "/") (str "_")
  let name := ReplaceAll name (str ":") (str "_")
  let name := ReplaceAll name (str "?") (str "_")
  let name := ReplaceAll name (str "&") (str "_")
  let name := ReplaceAll name (str "=") (str "_")
  let name := if name.length > 50 then name.take 50 else name
  name

/-! ## Characters

The spec counts characters; Go's `len` and slicing count bytes.  The two
agree on ASCII text only. -/

/-- Loop of `utf8.RuneCountInString`: one rune per UTF-8 sequence, an
ill-formed byte counting as one rune. -/
def runeCountLoop : Nat → GoString → Nat
  | 0, _ => 0
  | _ + 1, [] => 0
  | fuel + 1, c :: cs => 1 + runeCountLoop fuel ((c :: cs).drop (runeWidth (c :: cs)))

/-- Go `utf8.RuneCountInString`: the number of characters of a string. -/
def runeCount (s : GoString) : Nat := runeCountLoop s.length s

/-- Loop of `takeRunes`. -/
def takeRunesLoop : Nat → Nat → GoString → GoString
  | 0, _, _ => []
  | _ + 1, 0, _ => []
  | _ + 1, _ + 1, [] => []
  | fuel + 1, n + 1, c :: cs =>
    (c :: cs).take (runeWidth (c :: cs)) ++
      takeRunesLoop fuel n ((c :: cs).drop (runeWidth (c :: cs)))

/-- The first `n` characters of a string (Go `string([]rune(s)[:n])` on
well-formed text, all of `s` when it has fewer). -/
def takeRunes (n : Nat) (s : GoString) : GoString := takeRunesLoop s.length n s

/-- All bytes are ASCII. -/
def IsASCII (s : GoString) : Prop := ∀ b ∈ s, b < 0x80

/-! ## The sanitizer as the spec words it -/

/-- Removes one leading `pre` from `s` if present. -/
def removeLeading (pre s : GoString) : GoString :=
  if pre <+: s then s.drop pre.length else s

/-- Replaces every `/`, `:`, `?`, `&` and `=` with `_`. -/
def replaceSpecial (s : GoString) : GoString :=
  s.map (fun c => if c ∈ str "/:?&=" then 95 else c)

/-- The text the sanitizer truncates: prefixes removed, characters replaced. -/
def sanitizeBody (u : GoString) : GoString :=
  replaceSpecial
    (removeLeading (str "www.") (removeLeading (str "http://") (removeLeading (str "https://") u)))

/-- The spec's sanitizer: the first 50 characters of the body. -/
def sanitizeSpec (u : GoString) : GoString := takeRunes 50 (sanitizeBody u)

/-! ## Paths -/

/-- Splits a string at every occurrence of the byte `sep`. -/
def splitSep (sep : Nat) : GoString → List GoString
  | [] => [[]]
  | c :: cs =>
    if c = sep then [] :: splitSep sep cs
    else
      match splitSep sep cs with
      | [] => [[c]]
      | h :: t => (c :: h) :: t

/-- One path element of `filepath.Clean`, on the stack of elements kept so far
(last kept element first): empty and `.` elements are dropped, `..` removes
the element before it, is dropped at the root, and is kept otherwise. -/
def cleanStep (rooted : Bool) (stack : List GoString) (c : GoString) : List GoString :=
  if c = [] ∨ c = str "." then stack
  else if c = str ".." then
    match stack with
    | [] => if rooted then [] else [c]
    | top :: rest => if top = str ".." then c :: stack else rest
  else c :: stack

/-- Go `filepath.Clean` with separator `/`, after its documentation. -/
def Clean (path : GoString) : GoString :=
  if path = [] then str "."
  else
    let rooted : Bool := path.head? == some 47
    let stack := (splitSep 47 path).foldl (cleanStep rooted) []
    let out := (if rooted then str "/" else []) ++ stringsJoin stack.reverse (str "/")
    if out = [] then str "." else out

/-- Go `filepath.Join` with separator `/`: leading empty elements are
skipped, the rest joined with `/` and cleaned. -/
def filepathJoin (elem : List GoString) : GoString :=
  match elem.dropWhile (fun e => e == []) with
  | [] => []
  | es => Clean (stringsJoin es (str "/"))

/-- The `htmlFile` of `scrapeOnce`. -/
def htmlFile (siteName : GoString) : GoString :=
  filepathJoin [str "data", siteName ++ str "_data.html"]

/-- The `screenshotFile` of `scrapeOnce`. -/
def screenshotFile (siteName : GoString) : GoString :=
  filepathJoin [str "screenshot", siteName ++ str "_screenshot.png"]

/-- The `urlsFile` of `scrapeOnce`. -/
def urlsFile (siteName : GoString) : GoString :=
  filepathJoin [str "urls", siteName ++ str "_urls.txt"]

/-! ## The pipeline

The network, the browser and the file system are outside the program; they
enter as the outcomes of the four calls the program makes on them.  Console
output (`fmt.Printf`) is not recorded. -/

/-- A Go `error`: its message, and the error it wraps when built with `%w`. -/
inductive GoError where
  | mk (msg : GoString)
  | wrap (msg : GoString) (inner : GoError)
  deriving DecidableEq

/-- The `Error()` method. -/
def GoError.Error : GoError → GoString
  | .mk msg => msg
  | .wrap msg _ => msg

/-- Go `fmt.Errorf(text + "%w", err)`. -/
def Errorf (text : GoString) (err : GoError) : GoError := .wrap (text ++ err.Error) err

/-- The verb `%d` of `fmt`. -/
def fmtInt (n : Int) : GoString := str (toString n)

/-- What a successful `chromedp.Run` leaves in `htmlContent`, `screenshotBuf`
and `links`. -/
structure RenderOutput where
  htmlContent : GoString
  screenshotBuf : GoString
  links : List GoString
  deriving DecidableEq

/-- The outside world of one scrape. -/
structure Env where
  /-- Outcome of `client.Head(url)`: the response status code, or a transport error. -/
  head : GoString → Except GoError Int
  /-- Outcome of `client.Get(url)`. -/
  get : GoString → Except GoError Int
  /-- Outcome of `chromedp.Run` on the url under the timeout (nanoseconds). -/
  run : GoString → Int → Except GoError RenderOutput
  /-- Outcome of `os.WriteFile(name, data, 0644)`: `none` when the file was written. -/
  writeFile : GoString → GoString → Option GoError

/-- A call on the outside world. -/
inductive Effect where
  | head (url : GoString)
  | get (url : GoString)
  | run (url : GoString) (timeout : Int)
  | writeFile (name data : GoString) (err : Option GoError)
  deriving DecidableEq

/-- Result of `getStatusCode`, with the calls it made. -/
structure StatusResult where
  code : Int
  err : Option GoError
  trace : List Effect
  deriving DecidableEq

/-- `getStatusCode` of `main.go`: HEAD, and GET when HEAD fails.  Closing the
response body is not recorded. -/
def getStatusCode (env : Env) (targetURL : GoString) : StatusResult :=
  match env.head targetURL with
  | .error _ =>
    match env.get targetURL with
    | .error err => ⟨0, some err, [.head targetURL, .get targetURL]⟩
    | .ok code => ⟨code, none, [.head targetURL, .get targetURL]⟩
  | .ok code => ⟨code, none, [.head targetURL]⟩

/-- Result of `scrapeOnce`, with the calls it made, in order. -/
structure ScrapeResult where
  statusCode : Int
  err : Option GoError
  trace : List Effect
  deriving DecidableEq

/-- `scrapeOnce` of `main.go`. -/
def scrapeOnce (env : Env) (targetURL : GoString) (timeout : Int) : ScrapeResult :=
  let probe := getStatusCode env targetURL
  let statusCode : Int :=
    match probe.err with
    | some _ => 0
    | none => probe.code
  let siteName := getSiteName targetURL
  let t0 := probe.trace ++ [.run targetURL timeout]
  match env.run targetURL timeout with
  | .error err => ⟨statusCode, some err, t0⟩
  | .ok out =>
    match env.writeFile (htmlFile siteName) out.htmlContent with
    | some err =>
      ⟨statusCode, some (Errorf (str "html kaydedilemedi ") err),
        t0 ++ [.writeFile (htmlFile siteName) out.htmlContent (some err)]⟩
    | none =>
      let t1 := t0 ++ [.writeFile (htmlFile siteName) out.htmlContent none]
      match env.writeFile (screenshotFile siteName) out.screenshotBuf with
      | some err =>
        ⟨statusCode, some (Errorf (str "ekran goruntusu kaydedilemedi ") err),
          t1 ++ [.writeFile (screenshotFile siteName) out.screenshotBuf (some err)]⟩
      | none =>
        let t2 := t1 ++ [.writeFile (screenshotFile siteName) out.screenshotBuf none]
        if out.links.length > 0 then
          let urlsContent := stringsJoin out.links (str "\n")
          match env.writeFile (urlsFile siteName) urlsContent with
          | some err =>
            ⟨statusCode, some (Errorf (str "urller kaydedilemedi ") err),
              t2 ++ [.writeFile (urlsFile siteName) urlsContent (some err)]⟩
          | none => ⟨statusCode, none, t2 ++ [.writeFile (urlsFile siteName) urlsContent none]⟩
        else ⟨statusCode, none, t2⟩

/-- The `pageData` handed to the template. -/
structure pageData where
  Message : GoString := []
  Class : GoString := []
  Files : List GoString := []
  StatusCode : Int := 0
  deriving DecidableEq

/-- Go `int64` multiplication result, wrapped to 64 bits. -/
def wrapInt64 (x : Int) : Int := (x + 2 ^ 63) % 2 ^ 64 - 2 ^ 63

/-- Result of one `/scrape` request: the page data given to `tmpl.Execute` and
the calls made. -/
structure HandlerResult where
  page : pageData
  trace : List Effect
  deriving DecidableEq

/-- The `/scrape` handler of `startServer`.  The request enters as the outcome
of `r.ParseForm()` and as `u`, the form field `url` after `strings.TrimSpace`. -/
def scrapeHandler (env : Env) (timeoutSec : Int) (parseErr : Option GoError) (u : GoString) :
    HandlerResult :=
  match parseErr with
  | some _ => ⟨{ Message := str "Form parse hatası", Class := str "err" }, []⟩
  | none =>
    if u = [] then ⟨{ Message := str "Lütfen bir URL girin", Class := str "err" }, []⟩
    else
      let r := scrapeOnce env u (wrapInt64 (timeoutSec * 1000000000))
      match r.err with
      | some err =>
        let msg :=
          if r.statusCode > 0 then
            str "Hata (HTTP " ++ fmtInt r.statusCode ++ str "): " ++ err.Error
          else str "Hata: " ++ err.Error
        ⟨{ Message := msg, Class := str "err", StatusCode := r.statusCode }, r.trace⟩
      | none =>
        let name := getSiteName u
        let files := [htmlFile name, screenshotFile name, urlsFile name]
        let msg :=
          if r.statusCode > 0 then str "islem tamamlandi HTTP " ++ fmtInt r.statusCode
          else str "islem tamamlandi"
        ⟨{ Message := msg, Class := str "ok", Files := files, StatusCode := r.statusCode },
          r.trace⟩

/-! ## Observations on a trace -/

/-- The `os.WriteFile` calls of a trace, failed ones included, in order. -/
def writeCalls : List Effect → List (GoString × GoString × Option GoError)
  | [] => []
  | .writeFile name data err :: rest => (name, data, err) :: writeCalls rest
  | _ :: rest => writeCalls rest

/-- The files a trace wrote: name and content of each successful
`os.WriteFile`, in order. -/
def filesWritten : List Effect → List (GoString × GoString)
  | [] => []
  | .writeFile name data none :: rest => (name, data) :: filesWritten rest
  | _ :: rest => filesWritten rest

/-- The calls of a trace that follow the probe: the render and the writes. -/
def afterProbe : List Effect → List Effect
  | [] => []
  | .head _ :: rest => afterProbe rest
  | .get _ :: rest => afterProbe rest
  | e :: rest => e :: afterProbe rest

/-! ## Auxiliary definitions for the proofs -/

/-- What the five `ReplaceAll` calls of `getSiteName` do to one byte. -/
def sanitizeByte (c : Nat) : Nat :=
  if c = 47 ∨ c = 58 ∨ c = 63 ∨ c = 38 ∨ c = 61 then 95 else c

/-- The three `TrimPrefix` calls of `getSiteName`. -/
def stripPrefixes (url : GoString) : GoString :=
  TrimPrefix (TrimPrefix (TrimPrefix url (str "https://")) (str "http://")) (str "www.")

/-- An element that `filepath.Clean` keeps as it is. -/
def PlainElem (e : GoString) : Prop := 47 ∉ e ∧ e ≠ [] ∧ e ≠ str "." ∧ e ≠ str ".."

/-! ## Sample worlds -/

/-- The page of the end-to-end scenario: `https://example.com` answers 200 and
renders with two links; every write succeeds. -/
def exampleEnv : Env where
  head := fun _ => .ok 200
  get := fun _ => .ok 200
  run := fun _ _ =>
    .ok ⟨str "<html>...</html>", [137, 80, 78, 71, 13, 10, 26, 10, 0, 0],
      [str "https://example.com/a", str "https://example.com/b"]⟩
  writeFile := fun _ _ => none

/-- A page without anchors; every write succeeds. -/
def noLinksEnv : Env where
  head := fun _ => .ok 200
  get := fun _ => .ok 200
  run := fun _ _ => .ok ⟨str "<html><body>hi</body></html>", [137, 80, 78, 71], []⟩
  writeFile := fun _ _ => none

/-- The end-to-end page with a read-only `data` directory: writes below
`data/` fail, all others succeed. -/
def readOnlyDataEnv : Env where
  head := fun _ => .ok 200
  get := fun _ => .ok 200
  run := exampleEnv.run
  writeFile := fun name _ =>
    if HasPrefix name (str "data/") then some (.mk (str "permission denied")) else none

/-- A page without anchors and a read-only `data` directory. -/
def noLinksReadOnlyEnv : Env where
  head := fun _ => .ok 200
  get := fun _ => .ok 200
  run := noLinksEnv.run
  writeFile := readOnlyDataEnv.writeFile

/-- The end-to-end page behind a probe that fails (HEAD and GET both). -/
def probeDownEnv : Env where
  head := fun _ => .error (.mk (str "dial tcp: i/o timeout"))
  get := fun _ => .error (.mk (str "dial tcp: i/o timeout"))
  run := exampleEnv.run
  writeFile := fun _ _ => none

/-- A browser that cannot load the page. -/
def renderDownEnv : Env where
  head := fun _ => .ok 200
  get := fun _ => .ok 200
  run := fun _ _ => .error (.mk (str "context deadline exceeded"))
  writeFile := fun _ _ => none

/-- A URL of 200 characters: `https://` and 192 times `é` (two bytes each). -/
def accentedURL : GoString := str "https://" ++ (List.replicate 192 (str "é")).flatten

/-- A URL with a Turkish path: `https://example.com/` and 20 times `ş`. -/
def turkishURL : GoString := str "https://example.com/" ++ (List.replicate 20 (str "ş")).flatten

/-! ## Lemmas -/

theorem hasPrefix_single (o c : Nat) (cs : GoString) :
    HasPrefix (c :: cs) [o] = decide (c = o) := by
  by_cases h : c = o <;> simp [HasPrefix, h]

theorem replaceLoop_single (o n : Nat) :
    ∀ (fuel : Nat) (s : GoString), s.length ≤ fuel →
      replaceLoop [o] [n] fuel s = s.map (fun c => if c = o then n else c) := by
  intro fuel
  induction fuel with
  | zero =>
    intro s hs
    have : s = [] := List.length_eq_zero.mp (Nat.le_zero.mp hs)
    subst this
    rfl
  | succ k ih =>
    intro s hs
    cases s with
    | nil => rfl
    | cons c cs =>
      have hk : cs.length ≤ k := by simpa using hs
      by_cases h : c = o
      · simp [replaceLoop, hasPrefix_single, h, ih cs hk]
      · simp [replaceLoop, hasPrefix_single, h, ih cs hk]

theorem ReplaceAll_single (s : GoString) (o n : Nat) :
    ReplaceAll s [o] [n] = s.map (fun c => if c = o then n else c) := by
  simp [ReplaceAll, replaceLoop_single o n s.length s (Nat.le_refl _)]

theorem getSiteName_eq (url : GoString) :
    getSiteName url = ((stripPrefixes url).map sanitizeByte).take 50 := by
  have h1 : str "/" = [47] := by decide
  have h2 : str ":" = [58] := by decide
  have h3 : str "?" = [63] := by decide
  have h4 : str "&" = [38] := by decide
  have h5 : str "=" = [61] := by decide
  have h6 : str "_" = [95] := by decide
  have hmap : ∀ s : GoString,
      ((((s.map (fun c => if c = 47 then 95 else c)).map (fun c => if c = 58 then 95 else c)).map
        (fun c => if c = 63 then 95 else c)).map (fun c => if c = 38 then 95 else c)).map
        (fun c => if c = 61 then 95 else c) = s.map sanitizeByte := by
    intro s
    simp only [List.map_map]
    apply List.map_congr_left
    intro c _
    simp only [Function.comp, sanitizeByte]
    split_ifs <;> omega
  have htake : ∀ s : GoString, (if s.length > 50 then s.take 50 else s) = s.take 50 := by
    intro s
    split
    · rfl
    · exact (List.take_of_length_le (by omega)).symm
  simp only [getSiteName, h1, h2, h3, h4, h5, h6, ReplaceAll_single, hmap, htake, stripPrefixes]

theorem hasPrefix_iff (s pre : GoString) : HasPrefix s pre = true ↔ pre <+: s := by
  simp only [HasPrefix, Bool.and_eq_true, decide_eq_true_eq, beq_iff_eq]
  constructor
  · rintro ⟨_, h⟩
    exact List.prefix_iff_eq_take.mpr h.symm
  · intro h
    exact ⟨h.length_le, (List.prefix_iff_eq_take.mp h).symm⟩

theorem trimPrefix_eq_removeLeading (s pre : GoString) :
    TrimPrefix s pre = removeLeading pre s := by
  unfold TrimPrefix removeLeading
  by_cases h : pre <+: s
  · simp [h, (hasPrefix_iff s pre).mpr h]
  · have : HasPrefix s pre = false := by
      cases hp : HasPrefix s pre
      · rfl
      · exact absurd ((hasPrefix_iff s pre).mp hp) h
    simp [h, this]

theorem length_trimPrefix (s pre : GoString) :
    s.length - pre.length ≤ (TrimPrefix s pre).length ∧ (TrimPrefix s pre).length ≤ s.length := by
  unfold TrimPrefix
  split
  · simp
  · omega

theorem mem_trimPrefix {s pre : GoString} {c : Nat} (h : c ∈ TrimPrefix s pre) : c ∈ s := by
  unfold TrimPrefix at h
  split at h
  · exact List.mem_of_mem_drop h
  · exact h

theorem trimPrefix_eq_self_iff (s pre : GoString) (hp : pre ≠ []) :
    TrimPrefix s pre = s ↔ HasPrefix s pre = false := by
  unfold TrimPrefix
  cases h : HasPrefix s pre
  · simp
  · have hle : pre.length ≤ s.length := ((hasPrefix_iff s pre).mp h).length_le
    have hpos : 0 < pre.length := List.length_pos.mpr hp
    simp only [if_true, Bool.true_eq_false, iff_false]
    intro heq
    have := congrArg List.length heq
    simp at this
    omega

theorem trimPrefix_of_not_mem (s pre : GoString) (c : Nat) (hc : c ∈ pre) (hs : c ∉ s) :
    TrimPrefix s pre = s := by
  unfold TrimPrefix
  cases h : HasPrefix s pre
  · simp
  · exact absurd (((hasPrefix_iff s pre).mp h).subset hc) hs

theorem sanitizeByte_safe (c : Nat) :
    sanitizeByte c ≠ 47 ∧ sanitizeByte c ≠ 58 ∧ sanitizeByte c ≠ 63 ∧ sanitizeByte c ≠ 38 ∧
      sanitizeByte c ≠ 61 := by
  unfold sanitizeByte
  split_ifs <;> omega

theorem sanitizeByte_of_safe (c : Nat)
    (h : c ≠ 47 ∧ c ≠ 58 ∧ c ≠ 63 ∧ c ≠ 38 ∧ c ≠ 61) : sanitizeByte c = c := by
  unfold sanitizeByte
  split_ifs <;> omega

theorem mem_getSiteName (u : GoString) (c : Nat) (h : c ∈ getSiteName u) :
    c ≠ 47 ∧ c ≠ 58 ∧ c ≠ 63 ∧ c ≠ 38 ∧ c ≠ 61 := by
  rw [getSiteName_eq] at h
  obtain ⟨x, _, rfl⟩ := List.mem_map.mp (List.mem_of_mem_take h)
  exact sanitizeByte_safe x

theorem length_getSiteName_le (u : GoString) : (getSiteName u).length ≤ 50 := by
  rw [getSiteName_eq]
  exact List.length_take_le _ _

theorem length_stripPrefixes (u : GoString) : u.length - 19 ≤ (stripPrefixes u).length := by
  unfold stripPrefixes
  have h1 := (length_trimPrefix u (str "https://")).1
  have h2 := (length_trimPrefix (TrimPrefix u (str "https://")) (str "http://")).1
  have h3 := (length_trimPrefix (TrimPrefix (TrimPrefix u (str "https://")) (str "http://"))
    (str "www.")).1
  have e1 : (str "https://").length = 8 := by decide
  have e2 : (str "http://").length = 7 := by decide
  have e3 : (str "www.").length = 4 := by decide
  omega

/-- On byte lengths the truncation is exact: an input of at least 69 bytes
(so every input of 200 bytes) gives an identifier of exactly 50 bytes. -/
theorem length_getSiteName_of_long (u : GoString) (h : 69 ≤ u.length) :
    (getSiteName u).length = 50 := by
  rw [getSiteName_eq, List.length_take, List.length_map]
  have := length_stripPrefixes u
  omega

theorem getSiteName_of_safe (s : GoString)
    (hs : ∀ c ∈ s, c ≠ 47 ∧ c ≠ 58 ∧ c ≠ 63 ∧ c ≠ 38 ∧ c ≠ 61) (hl : s.length ≤ 50) :
    getSiteName s = TrimPrefix s (str "www.") := by
  have h1 : TrimPrefix s (str "https://") = s :=
    trimPrefix_of_not_mem s _ 58 (by decide) (fun h => (hs 58 h).2.1 rfl)
  have h2 : TrimPrefix s (str "http://") = s :=
    trimPrefix_of_not_mem s _ 58 (by decide) (fun h => (hs 58 h).2.1 rfl)
  rw [getSiteName_eq]
  unfold stripPrefixes
  rw [h1, h2]
  have hmap : (TrimPrefix s (str "www.")).map sanitizeByte = TrimPrefix s (str "www.") := by
    conv_rhs => rw [← List.map_id (TrimPrefix s (str "www."))]
    apply List.map_congr_left
    intro c hc
    simpa using sanitizeByte_of_safe c (hs c (mem_trimPrefix hc))
  rw [hmap]
  exact List.take_of_length_le (Nat.le_trans (length_trimPrefix s _).2 hl)

theorem replaceSpecial_eq (s : GoString) : replaceSpecial s = s.map sanitizeByte := by
  unfold replaceSpecial
  apply List.map_congr_left
  intro c _
  have : str "/:?&=" = [47, 58, 63, 38, 61] := by decide
  simp only [this, sanitizeByte, List.mem_cons, List.mem_singleton, List.not_mem_nil, or_false]

/-- Byte for byte, `getSiteName` is the spec's pipeline followed by a cut at
50 bytes. -/
theorem getSiteName_eq_body_take (u : GoString) :
    getSiteName u = (sanitizeBody u).take 50 := by
  rw [getSiteName_eq]
  unfold sanitizeBody stripPrefixes
  rw [replaceSpecial_eq]
  simp only [trimPrefix_eq_removeLeading]

theorem runeWidth_of_ascii (c : Nat) (cs : GoString) (h : c < 0x80) : runeWidth (c :: cs) = 1 := by
  simp [runeWidth, h]

theorem runeWidth_pos (c : Nat) (cs : GoString) : 1 ≤ runeWidth (c :: cs) := by
  unfold runeWidth
  simp only []
  repeat' split
  all_goals omega

theorem runeCountLoop_le (fuel : Nat) : ∀ s : GoString, runeCountLoop fuel s ≤ s.length := by
  induction fuel with
  | zero =>
    intro s
    simp [runeCountLoop]
  | succ k ih =>
    intro s
    cases s with
    | nil => simp [runeCountLoop]
    | cons c cs =>
      have hw := runeWidth_pos c cs
      have := ih ((c :: cs).drop (runeWidth (c :: cs)))
      simp only [runeCountLoop, List.length_drop, List.length_cons] at this ⊢
      omega

/-- A string has at most as many characters as bytes. -/
theorem runeCount_le_length (s : GoString) : runeCount s ≤ s.length := runeCountLoop_le _ s

theorem takeRunesLoop_of_ascii :
    ∀ (fuel n : Nat) (s : GoString), s.length ≤ fuel → IsASCII s →
      takeRunesLoop fuel n s = s.take n := by
  intro fuel
  induction fuel with
  | zero =>
    intro n s hs _
    have : s = [] := List.length_eq_zero.mp (Nat.le_zero.mp hs)
    subst this
    simp [takeRunesLoop]
  | succ k ih =>
    intro n s hs ha
    cases n with
    | zero => simp [takeRunesLoop]
    | succ m =>
      cases s with
      | nil => simp [takeRunesLoop]
      | cons c cs =>
        have hc : c < 0x80 := ha c (List.mem_cons_self _ _)
        have hcs : IsASCII cs := fun b hb => ha b (List.mem_cons_of_mem _ hb)
        have hk : cs.length ≤ k := by simpa using hs
        simp [takeRunesLoop, runeWidth_of_ascii c cs hc, ih m cs hk hcs]

theorem takeRunes_of_ascii (n : Nat) (s : GoString) (h : IsASCII s) : takeRunes n s = s.take n :=
  takeRunesLoop_of_ascii s.length n s (Nat.le_refl _) h

theorem isASCII_sanitizeBody (u : GoString) (h : IsASCII u) : IsASCII (sanitizeBody u) := by
  intro b hb
  unfold sanitizeBody at hb
  rw [replaceSpecial_eq] at hb
  obtain ⟨x, hx, rfl⟩ := List.mem_map.mp hb
  simp only [← trimPrefix_eq_removeLeading] at hx
  have hxu : x < 0x80 := h x (mem_trimPrefix (mem_trimPrefix (mem_trimPrefix hx)))
  unfold sanitizeByte
  split_ifs <;> omega

/-- On ASCII input, where bytes and characters coincide, `getSiteName` is
the spec's sanitizer. -/
theorem getSiteName_eq_spec_of_ascii (u : GoString) (h : IsASCII u) :
    getSiteName u = sanitizeSpec u := by
  rw [getSiteName_eq_body_take, sanitizeSpec, takeRunes_of_ascii _ _ (isASCII_sanitizeBody u h)]

theorem splitSep_of_not_mem (sep : Nat) (s : GoString) (h : sep ∉ s) : splitSep sep s = [s] := by
  induction s with
  | nil => rfl
  | cons c cs ih =>
    have hc : c ≠ sep := fun e => h (e ▸ List.mem_cons_self _ _)
    have hcs : sep ∉ cs := fun m => h (List.mem_cons_of_mem _ m)
    simp [splitSep, hc, ih hcs]

theorem splitSep_append (sep : Nat) (d f : GoString) (h : sep ∉ d) :
    splitSep sep (d ++ sep :: f) = d :: splitSep sep f := by
  induction d with
  | nil => simp [splitSep]
  | cons c cs ih =>
    have hc : c ≠ sep := fun e => h (e ▸ List.mem_cons_self _ _)
    have hcs : sep ∉ cs := fun m => h (List.mem_cons_of_mem _ m)
    simp [splitSep, hc, ih hcs]

theorem filepathJoin_pair (d f : GoString) (hd : PlainElem d) (hf : PlainElem f) :
    filepathJoin [d, f] = d ++ 47 :: f := by
  obtain ⟨hd1, hd2, hd3, hd4⟩ := hd
  obtain ⟨hf1, hf2, hf3, hf4⟩ := hf
  have hsep : str "/" = [47] := by decide
  have hjoin : stringsJoin [d, f] (str "/") = d ++ 47 :: f := by
    simp [stringsJoin, hsep]
  have hne : d ++ 47 :: f ≠ [] := by simp
  have hroot : ((d ++ 47 :: f).head? == some 47) = false := by
    cases d with
    | nil => exact absurd rfl hd2
    | cons c cs =>
      have hc : c ≠ 47 := fun e => hd1 (e ▸ List.mem_cons_self _ _)
      simp [hc]
  have hdrop : List.dropWhile (fun e => e == []) [d, f] = [d, f] := by
    cases d with
    | nil => exact absurd rfl hd2
    | cons c cs => rfl
  unfold filepathJoin
  rw [hdrop]
  simp only [hjoin]
  unfold Clean
  rw [if_neg hne]
  simp only [hroot, splitSep_append 47 d f hd1, splitSep_of_not_mem 47 f hf1, List.foldl_cons,
    List.foldl_nil, cleanStep, hd2, hd3, hd4, hf2, hf3, hf4, or_self, if_false, List.reverse_cons,
    List.reverse_nil, List.nil_append, List.cons_append, stringsJoin, hsep, List.map_cons,
    List.map_nil, List.flatten, List.append_nil, List.singleton_append, Bool.false_eq_true]
  simp

theorem plainElem_suffix (siteName suffix : GoString) (hs : 47 ∉ siteName) (hx : 47 ∉ suffix)
    (hl : 3 ≤ suffix.length) : PlainElem (siteName ++ suffix) := by
  have hlen : 3 ≤ (siteName ++ suffix).length := by
    rw [List.length_append]
    omega
  refine ⟨?_, ?_, ?_, ?_⟩
  · simp [hs, hx]
  · intro h
    rw [h] at hlen
    simp at hlen
  · intro h
    rw [h] at hlen
    revert hlen
    decide
  · intro h
    rw [h] at hlen
    revert hlen
    decide

theorem not_sep_mem_getSiteName (u : GoString) : 47 ∉ getSiteName u :=
  fun h => (mem_getSiteName u 47 h).1 rfl

theorem htmlFile_getSiteName (u : GoString) :
    htmlFile (getSiteName u) = str "data" ++ 47 :: (getSiteName u ++ str "_data.html") :=
  filepathJoin_pair _ _ (by unfold PlainElem; decide)
    (plainElem_suffix _ _ (not_sep_mem_getSiteName u) (by decide) (by decide))

theorem screenshotFile_getSiteName (u : GoString) :
    screenshotFile (getSiteName u) =
      str "screenshot" ++ 47 :: (getSiteName u ++ str "_screenshot.png") :=
  filepathJoin_pair _ _ (by unfold PlainElem; decide)
    (plainElem_suffix _ _ (not_sep_mem_getSiteName u) (by decide) (by decide))

theorem urlsFile_getSiteName (u : GoString) :
    urlsFile (getSiteName u) = str "urls" ++ 47 :: (getSiteName u ++ str "_urls.txt") :=
  filepathJoin_pair _ _ (by unfold PlainElem; decide)
    (plainElem_suffix _ _ (not_sep_mem_getSiteName u) (by decide) (by decide))

theorem htmlFile_eq (u : GoString) :
    htmlFile (getSiteName u) = str "data/" ++ getSiteName u ++ str "_data.html" := by
  rw [htmlFile_getSiteName]
  have : str "data/" = str "data" ++ [47] := by decide
  simp [this]

theorem screenshotFile_eq (u : GoString) :
    screenshotFile (getSiteName u) =
      str "screenshot/" ++ getSiteName u ++ str "_screenshot.png" := by
  rw [screenshotFile_getSiteName]
  have : str "screenshot/" = str "screenshot" ++ [47] := by decide
  simp [this]

theorem urlsFile_eq (u : GoString) :
    urlsFile (getSiteName u) = str "urls/" ++ getSiteName u ++ str "_urls.txt" := by
  rw [urlsFile_getSiteName]
  have : str "urls/" = str "urls" ++ [47] := by decide
  simp [this]

theorem count_sep_path (dir siteName suffix : GoString) (hd : dir.count 47 = 1)
    (hs : 47 ∉ siteName) (hx : suffix.count 47 = 0) :
    (dir ++ siteName ++ suffix).count 47 = 1 := by
  rw [List.count_append, List.count_append, hd, hx, List.count_eq_zero.mpr hs]

theorem not_under_urls_data (rest : GoString) :
    HasPrefix (str "data/" ++ rest) (str "urls/") = false := by
  have hd : str "data/" = [100, 97, 116, 97, 47] := by decide
  have hu : str "urls/" = [117, 114, 108, 115, 47] := by decide
  simp [HasPrefix, hd, hu]

theorem not_under_urls_screenshot (rest : GoString) :
    HasPrefix (str "screenshot/" ++ rest) (str "urls/") = false := by
  have hd : str "screenshot/" = [115, 99, 114, 101, 101, 110, 115, 104, 111, 116, 47] := by decide
  have hu : str "urls/" = [117, 114, 108, 115, 47] := by decide
  simp [HasPrefix, hd, hu]

theorem stringsJoin_eq_intercalate (sep : GoString) (es : List GoString) :
    stringsJoin es sep = sep.intercalate es := by
  cases es with
  | nil => rfl
  | cons e rest =>
    induction rest generalizing e with
    | nil => simp [stringsJoin, List.intercalate, List.intersperse]
    | cons e2 rest ih =>
      have h := ih e2
      cases rest with
      | nil => simp [stringsJoin, List.intercalate, List.intersperse]
      | cons e3 rest2 =>
        simp only [stringsJoin, List.intercalate, List.intersperse, List.map_cons,
          List.flatten_cons, List.append_assoc] at h ⊢
        rw [h]

theorem writeCalls_append (a b : List Effect) :
    writeCalls (a ++ b) = writeCalls a ++ writeCalls b := by
  induction a with
  | nil => rfl
  | cons e rest ih => cases e <;> simp [writeCalls, ih]

theorem filesWritten_append (a b : List Effect) :
    filesWritten (a ++ b) = filesWritten a ++ filesWritten b := by
  induction a with
  | nil => rfl
  | cons e rest ih =>
    cases e with
    | writeFile name data err => cases err <;> simp [filesWritten, ih]
    | head url => simp [filesWritten, ih]
    | get url => simp [filesWritten, ih]
    | run url timeout => simp [filesWritten, ih]

theorem afterProbe_append (a b : List Effect) :
    afterProbe (a ++ b) = afterProbe a ++ afterProbe b := by
  induction a with
  | nil => rfl
  | cons e rest ih => cases e <;> simp [afterProbe, ih]

theorem getStatusCode_trace (env : Env) (u : GoString) :
    writeCalls (getStatusCode env u).trace = [] ∧ filesWritten (getStatusCode env u).trace = [] ∧
      afterProbe (getStatusCode env u).trace = [] := by
  unfold getStatusCode
  cases env.head u with
  | error e =>
    cases env.get u with
    | error e2 => simp [writeCalls, filesWritten, afterProbe]
    | ok code => simp [writeCalls, filesWritten, afterProbe]
  | ok code => simp [writeCalls, filesWritten, afterProbe]

/-- The status code `scrapeOnce` reports: the probe's, or 0 when the probe failed. -/
theorem scrapeOnce_statusCode (env : Env) (u : GoString) (t : Int) :
    (scrapeOnce env u t).statusCode =
      match (getStatusCode env u).err with
      | some _ => 0
      | none => (getStatusCode env u).code := by
  unfold scrapeOnce
  cases env.run u t with
  | error e => rfl
  | ok out =>
    simp only []
    cases env.writeFile (htmlFile (getSiteName u)) out.htmlContent with
    | some e => rfl
    | none =>
      simp only []
      cases env.writeFile (screenshotFile (getSiteName u)) out.screenshotBuf with
      | some e => rfl
      | none =>
        simp only []
        split
        · cases env.writeFile (urlsFile (getSiteName u)) (stringsJoin out.links (str "\n")) with
          | some e => rfl
          | none => rfl
        · rfl

/-- The example of the spec: scheme and `www.` removed, the five characters
replaced, letter case kept. -/
theorem getSiteName_example :
    getSiteName (str "https://www.Example.com/a?b=c&d=e") = str "Example.com_a_b_c_d_e" := by
  decide

/-! ## The claims -/

/-- C1, as the code has it: when the render succeeds and a write fails,
`scrapeOnce` returns that write's error, wrapped, and attempts no later write;
the writes before it, in the order html, screenshot, links, have been made. -/
theorem scrapeOnce_write_failure (env : Env) (u : GoString) (t : Int) (out : RenderOutput)
    (hrun : env.run u t = .ok out) :
    (∀ e, env.writeFile (htmlFile (getSiteName u)) out.htmlContent = some e →
      (scrapeOnce env u t).err = some (Errorf (str "html kaydedilemedi ") e) ∧
      writeCalls (scrapeOnce env u t).trace =
        [(htmlFile (getSiteName u), out.htmlContent, some e)]) ∧
    (∀ e, env.writeFile (htmlFile (getSiteName u)) out.htmlContent = none →
      env.writeFile (screenshotFile (getSiteName u)) out.screenshotBuf = some e →
      (scrapeOnce env u t).err = some (Errorf (str "ekran goruntusu kaydedilemedi ") e) ∧
      writeCalls (scrapeOnce env u t).trace =
        [(htmlFile (getSiteName u), out.htmlContent, none),
         (screenshotFile (getSiteName u), out.screenshotBuf, some e)]) ∧
    (∀ e, env.writeFile (htmlFile (getSiteName u)) out.htmlContent = none →
      env.writeFile (screenshotFile (getSiteName u)) out.screenshotBuf = none →
      out.links ≠ [] →
      env.writeFile (urlsFile (getSiteName u)) (stringsJoin out.links (str "\n")) = some e →
      (scrapeOnce env u t).err = some (Errorf (str "urller kaydedilemedi ") e) ∧
      writeCalls (scrapeOnce env u t).trace =
        [(htmlFile (getSiteName u), out.htmlContent, none),
         (screenshotFile (getSiteName u), out.screenshotBuf, none),
         (urlsFile (getSiteName u), stringsJoin out.links (str "\n"), some e)]) := by
  have hp := (getStatusCode_trace env u).1
  refine ⟨?_, ?_, ?_⟩
  · intro e h1
    simp [scrapeOnce, hrun, h1, writeCalls_append, hp, writeCalls]
  · intro e h1 h2
    simp [scrapeOnce, hrun, h1, h2, writeCalls_append, hp, writeCalls]
  · intro e h1 h2 hl h3
    have hpos : 0 < out.links.length := List.length_pos.mpr hl
    simp [scrapeOnce, hrun, h1, h2, h3, hpos, writeCalls_append, hp, writeCalls]

/-- C1, witness: with a read-only `data` directory the html write fails, and
the scrape ends there with the wrapped error. -/
theorem scrapeOnce_write_failure_witness :
    (scrapeOnce readOnlyDataEnv (str "https://example.com") 30000000000).err =
        some (Errorf (str "html kaydedilemedi ") (.mk (str "permission denied"))) ∧
      writeCalls (scrapeOnce readOnlyDataEnv (str "https://example.com") 30000000000).trace =
        [(htmlFile (getSiteName (str "https://example.com")), str "<html>...</html>",
          some (.mk (str "permission denied")))] :=
  (scrapeOnce_write_failure readOnlyDataEnv (str "https://example.com") 30000000000
    ⟨str "<html>...</html>", [137, 80, 78, 71, 13, 10, 26, 10, 0, 0],
      [str "https://example.com/a", str "https://example.com/b"]⟩ rfl).1
    (.mk (str "permission denied")) (by decide)

/-- C1, counterexample: the render succeeds and exactly one write, the html
one, fails (the screenshot and links writes would succeed); `scrapeOnce`
returns an error and writes no file. -/
theorem scrapeOnce_html_failure_is_fatal :
    (∃ out, readOnlyDataEnv.run (str "https://example.com") 30000000000 = .ok out ∧
      readOnlyDataEnv.writeFile (htmlFile (getSiteName (str "https://example.com")))
        out.htmlContent ≠ none ∧
      readOnlyDataEnv.writeFile (screenshotFile (getSiteName (str "https://example.com")))
        out.screenshotBuf = none ∧
      readOnlyDataEnv.writeFile (urlsFile (getSiteName (str "https://example.com")))
        (stringsJoin out.links (str "\n")) = none) ∧
    (scrapeOnce readOnlyDataEnv (str "https://example.com") 30000000000).err ≠ none ∧
    filesWritten (scrapeOnce readOnlyDataEnv (str "https://example.com") 30000000000).trace =
      [] := by
  refine ⟨⟨_, rfl, ?_, ?_, ?_⟩, ?_, ?_⟩ <;> decide

/-- C2: when the render session fails, `scrapeOnce` makes no `os.WriteFile`
call at all (its calls are the probe's and the render), and returns the
render error with the probed status code: the probe's code when the probe
succeeded, 0 when it failed. -/
theorem scrapeOnce_render_failure (env : Env) (u : GoString) (t : Int) (e : GoError)
    (hrun : env.run u t = .error e) :
    (scrapeOnce env u t).err = some e ∧
      (scrapeOnce env u t).trace = (getStatusCode env u).trace ++ [.run u t] ∧
      writeCalls (scrapeOnce env u t).trace = [] ∧
      ((getStatusCode env u).err = none →
        (scrapeOnce env u t).statusCode = (getStatusCode env u).code) ∧
      ((getStatusCode env u).err ≠ none → (scrapeOnce env u t).statusCode = 0) := by
  have hp := (getStatusCode_trace env u).1
  refine ⟨?_, ?_, ?_, ?_, ?_⟩
  · simp [scrapeOnce, hrun]
  · simp [scrapeOnce, hrun]
  · simp [scrapeOnce, hrun, writeCalls_append, hp, writeCalls]
  · intro h
    rw [scrapeOnce_statusCode, h]
  · intro h
    rw [scrapeOnce_statusCode]
    cases hq : (getStatusCode env u).err with
    | none => exact absurd hq h
    | some e2 => rfl

/-- C2, witness: a browser that times out; nothing is written and the probed
status 200 comes back with the render error. -/
theorem scrapeOnce_render_failure_witness :
    (scrapeOnce renderDownEnv (str "https://example.com") 30000000000).err =
        some (.mk (str "context deadline exceeded")) ∧
      writeCalls (scrapeOnce renderDownEnv (str "https://example.com") 30000000000).trace = [] ∧
      (scrapeOnce renderDownEnv (str "https://example.com") 30000000000).statusCode = 200 :=
  have h := scrapeOnce_render_failure renderDownEnv (str "https://example.com") 30000000000
    (.mk (str "context deadline exceeded")) rfl
  ⟨h.1, h.2.2.1, h.2.2.2.1 rfl⟩

/-- What `scrapeOnce` does after the probe, whatever the probe answered: the
render, then the writes in the order html, screenshot, links, up to the first
one that fails, the links write only when there is a link. -/
theorem scrapeOnce_after_probe (env : Env) (u : GoString) (t : Int) :
    (∀ e, env.run u t = .error e →
        (scrapeOnce env u t).err = some e ∧ afterProbe (scrapeOnce env u t).trace = [.run u t]) ∧
      (∀ out, env.run u t = .ok out →
        (∀ e, env.writeFile (htmlFile (getSiteName u)) out.htmlContent = some e →
          (scrapeOnce env u t).err = some (Errorf (str "html kaydedilemedi ") e) ∧
          afterProbe (scrapeOnce env u t).trace =
            [.run u t, .writeFile (htmlFile (getSiteName u)) out.htmlContent (some e)]) ∧
        (∀ e, env.writeFile (htmlFile (getSiteName u)) out.htmlContent = none →
          env.writeFile (screenshotFile (getSiteName u)) out.screenshotBuf = some e →
          (scrapeOnce env u t).err = some (Errorf (str "ekran goruntusu kaydedilemedi ") e) ∧
          afterProbe (scrapeOnce env u t).trace =
            [.run u t, .writeFile (htmlFile (getSiteName u)) out.htmlContent none,
             .writeFile (screenshotFile (getSiteName u)) out.screenshotBuf (some e)]) ∧
        (env.writeFile (htmlFile (getSiteName u)) out.htmlContent = none →
          env.writeFile (screenshotFile (getSiteName u)) out.screenshotBuf = none →
          out.links = [] →
          (scrapeOnce env u t).err = none ∧
          afterProbe (scrapeOnce env u t).trace =
            [.run u t, .writeFile (htmlFile (getSiteName u)) out.htmlContent none,
             .writeFile (screenshotFile (getSiteName u)) out.screenshotBuf none]) ∧
        (∀ e, env.writeFile (htmlFile (getSiteName u)) out.htmlContent = none →
          env.writeFile (screenshotFile (getSiteName u)) out.screenshotBuf = none →
          out.links ≠ [] →
          env.writeFile (urlsFile (getSiteName u)) (stringsJoin out.links (str "\n")) = some e →
          (scrapeOnce env u t).err = some (Errorf (str "urller kaydedilemedi ") e) ∧
          afterProbe (scrapeOnce env u t).trace =
            [.run u t, .writeFile (htmlFile (getSiteName u)) out.htmlContent none,
             .writeFile (screenshotFile (getSiteName u)) out.screenshotBuf none,
             .writeFile (urlsFile (getSiteName u)) (stringsJoin out.links (str "\n"))
               (some e)]) ∧
        (env.writeFile (htmlFile (getSiteName u)) out.htmlContent = none →
          env.writeFile (screenshotFile (getSiteName u)) out.screenshotBuf = none →
          out.links ≠ [] →
          env.writeFile (urlsFile (getSiteName u)) (stringsJoin out.links (str "\n")) = none →
          (scrapeOnce env u t).err = none ∧
          afterProbe (scrapeOnce env u t).trace =
            [.run u t, .writeFile (htmlFile (getSiteName u)) out.htmlContent none,
             .writeFile (screenshotFile (getSiteName u)) out.screenshotBuf none,
             .writeFile (urlsFile (getSiteName u)) (stringsJoin out.links (str "\n")) none])) := by
  have hp := (getStatusCode_trace env u).2.2
  refine ⟨?_, ?_⟩
  · intro e hrun
    simp [scrapeOnce, hrun, afterProbe_append, hp, afterProbe]
  · intro out hrun
    refine ⟨?_, ?_, ?_, ?_, ?_⟩
    · intro e h1
      simp [scrapeOnce, hrun, h1, afterProbe_append, hp, afterProbe]
    · intro e h1 h2
      simp [scrapeOnce, hrun, h1, h2, afterProbe_append, hp, afterProbe]
    · intro h1 h2 hl
      simp [scrapeOnce, hrun, h1, h2, hl, afterProbe_append, hp, afterProbe]
    · intro e h1 h2 hl h3
      have hpos : 0 < out.links.length := List.length_pos.mpr hl
      simp [scrapeOnce, hrun, h1, h2, h3, hpos, afterProbe_append, hp, afterProbe]
    · intro h1 h2 hl h3
      have hpos : 0 < out.links.length := List.length_pos.mpr hl
      simp [scrapeOnce, hrun, h1, h2, h3, hpos, afterProbe_append, hp, afterProbe]

/-- C3: when `getStatusCode` fails, `scrapeOnce` reports status 0 and goes on
as after a successful probe.  It runs the render session; when the render
fails it returns that error and writes nothing; when the render succeeds it
makes the html write, then the screenshot write, then the links write if
there is a link, stopping at the first write that fails; it returns no error
when the render and these writes succeed.  The calls after the probe and the
returned error are those of any world with the same browser and file system,
whatever its probe answers, and an error it returns comes from the render or
from a write. -/
theorem scrapeOnce_probe_advisory (env env2 : Env) (u : GoString) (t : Int)
    (hrun : env2.run = env.run) (hwrite : env2.writeFile = env.writeFile)
    (hprobe : (getStatusCode env u).err ≠ none) :
    (scrapeOnce env u t).statusCode = 0 ∧
      Effect.run u t ∈ (scrapeOnce env u t).trace ∧
      (scrapeOnce env u t).err = (scrapeOnce env2 u t).err ∧
      afterProbe (scrapeOnce env u t).trace = afterProbe (scrapeOnce env2 u t).trace ∧
      ((scrapeOnce env u t).err ≠ none →
        (∃ e, env.run u t = .error e) ∨
          ∃ w ∈ writeCalls (scrapeOnce env u t).trace, w.2.2 ≠ none) ∧
      (∀ e, env.run u t = .error e →
        (scrapeOnce env u t).err = some e ∧ afterProbe (scrapeOnce env u t).trace = [.run u t]) ∧
      (∀ out, env.run u t = .ok out →
        (∀ e, env.writeFile (htmlFile (getSiteName u)) out.htmlContent = some e →
          (scrapeOnce env u t).err = some (Errorf (str "html kaydedilemedi ") e) ∧
          afterProbe (scrapeOnce env u t).trace =
            [.run u t, .writeFile (htmlFile (getSiteName u)) out.htmlContent (some e)]) ∧
        (∀ e, env.writeFile (htmlFile (getSiteName u)) out.htmlContent = none →
          env.writeFile (screenshotFile (getSiteName u)) out.screenshotBuf = some e →
          (scrapeOnce env u t).err = some (Errorf (str "ekran goruntusu kaydedilemedi ") e) ∧
          afterProbe (scrapeOnce env u t).trace =
            [.run u t, .writeFile (htmlFile (getSiteName u)) out.htmlContent none,
             .writeFile (screenshotFile (getSiteName u)) out.screenshotBuf (some e)]) ∧
        (env.writeFile (htmlFile (getSiteName u)) out.htmlContent = none →
          env.writeFile (screenshotFile (getSiteName u)) out.screenshotBuf = none →
          out.links = [] →
          (scrapeOnce env u t).err = none ∧
          afterProbe (scrapeOnce env u t).trace =
            [.run u t, .writeFile (htmlFile (getSiteName u)) out.htmlContent none,
             .writeFile (screenshotFile (getSiteName u)) out.screenshotBuf none]) ∧
        (∀ e, env.writeFile (htmlFile (getSiteName u)) out.htmlContent = none →
          env.writeFile (screenshotFile (getSiteName u)) out.screenshotBuf = none →
          out.links ≠ [] →
          env.writeFile (urlsFile (getSiteName u)) (stringsJoin out.links (str "\n")) = some e →
          (scrapeOnce env u t).err = some (Errorf (str "urller kaydedilemedi ") e) ∧
          afterProbe (scrapeOnce env u t).trace =
            [.run u t, .writeFile (htmlFile (getSiteName u)) out.htmlContent none,
             .writeFile (screenshotFile (getSiteName u)) out.screenshotBuf none,
             .writeFile (urlsFile (getSiteName u)) (stringsJoin out.links (str "\n"))
               (some e)]) ∧
        (env.writeFile (htmlFile (getSiteName u)) out.htmlContent = none →
          env.writeFile (screenshotFile (getSiteName u)) out.screenshotBuf = none →
          out.links ≠ [] →
          env.writeFile (urlsFile (getSiteName u)) (stringsJoin out.links (str "\n")) = none →
          (scrapeOnce env u t).err = none ∧
          afterProbe (scrapeOnce env u t).trace =
            [.run u t, .writeFile (htmlFile (getSiteName u)) out.htmlContent none,
             .writeFile (screenshotFile (getSiteName u)) out.screenshotBuf none,
             .writeFile (urlsFile (getSiteName u)) (stringsJoin out.links (str "\n")) none])) := by
  have hw := (getStatusCode_trace env u).1
  have hp := (getStatusCode_trace env u).2.2
  have hp2 := (getStatusCode_trace env2 u).2.2
  have hstatus : (scrapeOnce env u t).statusCode = 0 := by
    rw [scrapeOnce_statusCode]
    cases hq : (getStatusCode env u).err with
    | none => exact absurd hq hprobe
    | some e2 => rfl
  have hafter := scrapeOnce_after_probe env u t
  refine ⟨hstatus, ?_, ?_, ?_, ?_, hafter.1, hafter.2⟩
  all_goals
    unfold scrapeOnce
    simp only [hrun, hwrite]
    cases env.run u t with
    | error e => simp [afterProbe_append, hp, hp2]
    | ok out =>
      simp only []
      cases env.writeFile (htmlFile (getSiteName u)) out.htmlContent with
      | some e => simp [afterProbe_append, hp, hp2, writeCalls_append, hw, writeCalls]
      | none =>
        simp only []
        cases env.writeFile (screenshotFile (getSiteName u)) out.screenshotBuf with
        | some e => simp [afterProbe_append, hp, hp2, writeCalls_append, hw, writeCalls]
        | none =>
          simp only []
          split
          · cases env.writeFile (urlsFile (getSiteName u))
              (stringsJoin out.links (str "\n")) with
            | some e => simp [afterProbe_append, hp, hp2, writeCalls_append, hw, writeCalls]
            | none => simp [afterProbe_append, hp, hp2]
          · simp [afterProbe_append, hp, hp2]

/-- C3, witness: the end-to-end page behind a dead probe; status 0, no
error, the render and the three writes made, the same as with the probe
answering 200. -/
theorem scrapeOnce_probe_advisory_witness :
    (getStatusCode probeDownEnv (str "https://example.com")).err ≠ none ∧
      (scrapeOnce probeDownEnv (str "https://example.com") 30000000000).statusCode = 0 ∧
      (scrapeOnce probeDownEnv (str "https://example.com") 30000000000).err = none ∧
      afterProbe (scrapeOnce probeDownEnv (str "https://example.com") 30000000000).trace =
        [.run (str "https://example.com") 30000000000,
         .writeFile (str "data/example.com_data.html") (str "<html>...</html>") none,
         .writeFile (str "screenshot/example.com_screenshot.png")
           [137, 80, 78, 71, 13, 10, 26, 10, 0, 0] none,
         .writeFile (str "urls/example.com_urls.txt")
           (str "https://example.com/a\nhttps://example.com/b") none] ∧
      (scrapeOnce probeDownEnv (str "https://example.com") 30000000000).err =
        (scrapeOnce exampleEnv (str "https://example.com") 30000000000).err ∧
      afterProbe (scrapeOnce probeDownEnv (str "https://example.com") 30000000000).trace =
        afterProbe (scrapeOnce exampleEnv (str "https://example.com") 30000000000).trace :=
  have h := scrapeOnce_probe_advisory probeDownEnv exampleEnv (str "https://example.com")
    30000000000 rfl rfl (by decide)
  have hok := (h.2.2.2.2.2.2 ⟨str "<html>...</html>", [137, 80, 78, 71, 13, 10, 26, 10, 0, 0],
    [str "https://example.com/a", str "https://example.com/b"]⟩ rfl).2.2.2.2 rfl rfl
    (by decide) rfl
  ⟨by decide, h.1, hok.1, hok.2, h.2.2.1, h.2.2.2.1⟩

/-- C4, as the code has it: a second pass removes one more leading `www.`
and changes nothing else; so `getSiteName` is idempotent on `u` exactly when
`getSiteName u` does not itself begin with `www.`. -/
theorem getSiteName_twice (u : GoString) :
    getSiteName (getSiteName u) = TrimPrefix (getSiteName u) (str "www.") ∧
      (getSiteName (getSiteName u) = getSiteName u ↔
        HasPrefix (getSiteName u) (str "www.") = false) := by
  have h := getSiteName_of_safe (getSiteName u) (mem_getSiteName u) (length_getSiteName_le u)
  refine ⟨h, ?_⟩
  rw [h]
  exact trimPrefix_eq_self_iff _ _ (by decide)

/-- C4, counterexample: `www.www.example.com` sanitizes to `www.example.com`,
which sanitizes to `example.com`. -/
theorem getSiteName_not_idempotent :
    getSiteName (str "www.www.example.com") = str "www.example.com" ∧
      getSiteName (getSiteName (str "www.www.example.com")) = str "example.com" ∧
      getSiteName (getSiteName (str "www.www.example.com")) ≠
        getSiteName (str "www.www.example.com") := by
  decide

/-- C5, at the failing input: `https://` followed by 192 times `é` has 200
characters; `getSiteName` cuts at 50 bytes, which is 25 characters. -/
theorem getSiteName_truncates_bytes :
    (∀ b ∈ accentedURL, b < 256) ∧ accentedURL.length = 392 ∧
      runeCount accentedURL = 200 ∧ (getSiteName accentedURL).length = 50 ∧
      getSiteName accentedURL = (List.replicate 25 (str "é")).flatten ∧
      runeCount (getSiteName accentedURL) = 25 := by
  decide

/-- C6, at the failing input: for `https://example.com/` followed by 20 times
`ş` the spec's sanitizer keeps all 32 characters of the body (52 bytes), and
`getSiteName` keeps its first 50 bytes, one `ş` less. -/
theorem getSiteName_differs_from_spec :
    (∀ b ∈ turkishURL, b < 256) ∧
      sanitizeBody turkishURL = str "example.com_" ++ (List.replicate 20 (str "ş")).flatten ∧
      runeCount (sanitizeBody turkishURL) = 32 ∧
      sanitizeSpec turkishURL = str "example.com_" ++ (List.replicate 20 (str "ş")).flatten ∧
      getSiteName turkishURL = str "example.com_" ++ (List.replicate 19 (str "ş")).flatten ∧
      getSiteName turkishURL ≠ sanitizeSpec turkishURL := by
  decide

/-- C7, at the failing input: a page without links is scraped with success;
the handler lists `urls/example.com_urls.txt` among the files, and the
request wrote the html and the screenshot only. -/
theorem scrapeHandler_lists_unwritten_file :
    (scrapeHandler noLinksEnv 30 none (str "https://example.com")).page.Class = str "ok" ∧
      (scrapeHandler noLinksEnv 30 none (str "https://example.com")).page.Files =
        [str "data/example.com_data.html", str "screenshot/example.com_screenshot.png",
         str "urls/example.com_urls.txt"] ∧
      (filesWritten (scrapeHandler noLinksEnv 30 none (str "https://example.com")).trace).map
          Prod.fst =
        [str "data/example.com_data.html", str "screenshot/example.com_screenshot.png"] := by
  decide

/-- C8: when the render and the three writes succeed and there is at least
one link, `scrapeOnce` makes exactly three writes, in this order:
`data/{id}_data.html` with the html, `screenshot/{id}_screenshot.png` with the
screenshot, `urls/{id}_urls.txt` with the links joined by a newline, where
`id = getSiteName u`; and it returns no error. -/
theorem scrapeOnce_writes_three_files (env : Env) (u : GoString) (t : Int) (out : RenderOutput)
    (hrun : env.run u t = .ok out) (hlinks : out.links ≠ [])
    (h1 : env.writeFile (str "data/" ++ getSiteName u ++ str "_data.html") out.htmlContent = none)
    (h2 : env.writeFile (str "screenshot/" ++ getSiteName u ++ str "_screenshot.png")
      out.screenshotBuf = none)
    (h3 : env.writeFile (str "urls/" ++ getSiteName u ++ str "_urls.txt")
      ((str "\n").intercalate out.links) = none) :
    (scrapeOnce env u t).err = none ∧
      writeCalls (scrapeOnce env u t).trace =
        [(str "data/" ++ getSiteName u ++ str "_data.html", out.htmlContent, none),
         (str "screenshot/" ++ getSiteName u ++ str "_screenshot.png", out.screenshotBuf, none),
         (str "urls/" ++ getSiteName u ++ str "_urls.txt",
          (str "\n").intercalate out.links, none)] ∧
      filesWritten (scrapeOnce env u t).trace =
        [(str "data/" ++ getSiteName u ++ str "_data.html", out.htmlContent),
         (str "screenshot/" ++ getSiteName u ++ str "_screenshot.png", out.screenshotBuf),
         (str "urls/" ++ getSiteName u ++ str "_urls.txt", (str "\n").intercalate out.links)] := by
  have hp := getStatusCode_trace env u
  have hpos : 0 < out.links.length := List.length_pos.mpr hlinks
  rw [← htmlFile_eq] at h1 ⊢
  rw [← screenshotFile_eq] at h2 ⊢
  rw [← urlsFile_eq, ← stringsJoin_eq_intercalate] at h3 ⊢
  simp [scrapeOnce, hrun, h1, h2, h3, hpos, writeCalls_append, filesWritten_append, hp.1, hp.2.1,
    writeCalls, filesWritten]

/-- C8, witness: the end-to-end scenario of `https://example.com` with the
links `https://example.com/a` and `https://example.com/b`. -/
theorem scrapeOnce_example_com :
    (scrapeOnce exampleEnv (str "https://example.com") 30000000000).err = none ∧
      filesWritten (scrapeOnce exampleEnv (str "https://example.com") 30000000000).trace =
        [(str "data/example.com_data.html", str "<html>...</html>"),
         (str "screenshot/example.com_screenshot.png", [137, 80, 78, 71, 13, 10, 26, 10, 0, 0]),
         (str "urls/example.com_urls.txt",
          str "https://example.com/a\nhttps://example.com/b")] :=
  have h := scrapeOnce_writes_three_files exampleEnv (str "https://example.com") 30000000000
    ⟨str "<html>...</html>", [137, 80, 78, 71, 13, 10, 26, 10, 0, 0],
      [str "https://example.com/a", str "https://example.com/b"]⟩ rfl (by decide) rfl rfl rfl
  ⟨h.1, h.2.2⟩

/-- C9, as the code has it: when the render succeeds with no link,
`scrapeOnce` makes no write below `urls/`; when moreover the html and the
screenshot writes succeed, these two are the only writes and no error is
returned. -/
theorem scrapeOnce_no_links (env : Env) (u : GoString) (t : Int) (out : RenderOutput)
    (hrun : env.run u t = .ok out) (hlinks : out.links = []) :
    (∀ w ∈ writeCalls (scrapeOnce env u t).trace, HasPrefix w.1 (str "urls/") = false) ∧
      (env.writeFile (htmlFile (getSiteName u)) out.htmlContent = none →
        env.writeFile (screenshotFile (getSiteName u)) out.screenshotBuf = none →
        (scrapeOnce env u t).err = none ∧
          writeCalls (scrapeOnce env u t).trace =
            [(str "data/" ++ getSiteName u ++ str "_data.html", out.htmlContent, none),
             (str "screenshot/" ++ getSiteName u ++ str "_screenshot.png",
              out.screenshotBuf, none)]) := by
  have hp := (getStatusCode_trace env u).1
  have hd := not_under_urls_data (getSiteName u ++ str "_data.html")
  have hs := not_under_urls_screenshot (getSiteName u ++ str "_screenshot.png")
  rw [← List.append_assoc, ← htmlFile_eq] at hd
  rw [← List.append_assoc, ← screenshotFile_eq] at hs
  constructor
  · unfold scrapeOnce
    simp only [hrun, hlinks]
    cases env.writeFile (htmlFile (getSiteName u)) out.htmlContent with
    | some e => simp [writeCalls_append, hp, writeCalls, hd]
    | none =>
      simp only []
      cases env.writeFile (screenshotFile (getSiteName u)) out.screenshotBuf with
      | some e => simp [writeCalls_append, hp, writeCalls, hd, hs]
      | none => simp [writeCalls_append, hp, writeCalls, hd, hs]
  · intro h1 h2
    rw [← htmlFile_eq, ← screenshotFile_eq]
    simp [scrapeOnce, hrun, hlinks, h1, h2, writeCalls_append, hp, writeCalls]

/-- C9, witness: a page without anchors; the html and the screenshot are
written, nothing below `urls/`, and no error is returned. -/
theorem scrapeOnce_no_links_witness :
    (∀ w ∈ writeCalls (scrapeOnce noLinksEnv (str "https://example.com") 30000000000).trace,
        HasPrefix w.1 (str "urls/") = false) ∧
      (scrapeOnce noLinksEnv (str "https://example.com") 30000000000).err = none :=
  have h := scrapeOnce_no_links noLinksEnv (str "https://example.com") 30000000000
    ⟨str "<html><body>hi</body></html>", [137, 80, 78, 71], []⟩ rfl rfl
  ⟨h.1, (h.2 rfl rfl).1⟩

/-- C9, counterexample: the render succeeds with no link and the html write
fails; `scrapeOnce` returns an error, and the screenshot write does not
happen. -/
theorem scrapeOnce_no_links_can_fail :
    (∃ out, noLinksReadOnlyEnv.run (str "https://example.com") 30000000000 = .ok out ∧
      out.links = []) ∧
    (scrapeOnce noLinksReadOnlyEnv (str "https://example.com") 30000000000).err ≠ none ∧
    filesWritten (scrapeOnce noLinksReadOnlyEnv (str "https://example.com") 30000000000).trace =
      [] := by
  refine ⟨⟨_, rfl, rfl⟩, ?_, ?_⟩ <;> decide

/-- C10: the identifier holds none of `/`, `:`, `?`, `&`, `=` and is at most
50 long, in bytes and so in characters; each artifact path is its directory,
one `/`, and the identifier with its suffix, so it has exactly one separator. -/
theorem getSiteName_filesystem_safe (u : GoString) :
    (∀ c ∈ getSiteName u, c ∉ str "/:?&=") ∧
      (getSiteName u).length ≤ 50 ∧
      runeCount (getSiteName u) ≤ 50 ∧
      htmlFile (getSiteName u) = str "data/" ++ getSiteName u ++ str "_data.html" ∧
      screenshotFile (getSiteName u) =
        str "screenshot/" ++ getSiteName u ++ str "_screenshot.png" ∧
      urlsFile (getSiteName u) = str "urls/" ++ getSiteName u ++ str "_urls.txt" ∧
      (htmlFile (getSiteName u)).count 47 = 1 ∧
      (screenshotFile (getSiteName u)).count 47 = 1 ∧
      (urlsFile (getSiteName u)).count 47 = 1 := by
  have hset : str "/:?&=" = [47, 58, 63, 38, 61] := by decide
  have hsep := not_sep_mem_getSiteName u
  refine ⟨?_, length_getSiteName_le u,
    Nat.le_trans (runeCount_le_length _) (length_getSiteName_le u), htmlFile_eq u,
    screenshotFile_eq u, urlsFile_eq u, ?_, ?_, ?_⟩
  · intro c hc
    have := mem_getSiteName u c hc
    simp only [hset, List.mem_cons, List.mem_singleton, List.not_mem_nil, or_false]
    omega
  · rw [htmlFile_eq]
    exact count_sep_path _ _ _ (by decide) hsep (by decide)
  · rw [screenshotFile_eq]
    exact count_sep_path _ _ _ (by decide) hsep (by decide)
  · rw [urlsFile_eq]
    exact count_sep_path _ _ _ (by decide) hsep (by decide)

end WebScraper
